import Mathlib

/-!
Verification of `DataPulse/topic_model_trainer.py` (`train_model_v2`).

The development shallowly embeds the function: Python values that flow
through the pipeline are modelled by `PyV`, the external collaborators
(dask scheduler, gensim, the repository's `utils`/`mathstats`/
`batch_estimation`/`process_futures` modules, hashing, randomness and
clocks) are modelled by an explicit environment `Env`, and
`trainModelV2` mirrors the control flow of the source line by line.
Exceptions that escape the function are the `Except.error` case; an
aborted invocation that produces no record is `Except.ok none`.
-/

namespace DataPulse

/-- Result of Python's `json.dumps`: the JSON value whose canonical
rendering is the produced string.  Keeping the structured value instead
of a rendered string loses nothing the claims depend on, because
`json.dumps` renders distinct values to distinct strings. -/
inductive J where
  | jnull : J
  | jbool (b : Bool) : J
  | jint (n : Int) : J
  | jfloat (q : ℚ) : J
  | jstr (s : String) : J
  | jlist (l : List J) : J
  | jobj (l : List (String × J)) : J

mutual
/-- Python values flowing through `train_model_v2`: strings, numbers
(`vfloat` for `float`/`np.float64`, `vf32` for `np.float32`), booleans,
`None`, lists, string-keyed dicts, numpy arrays, pandas DataFrames,
`pickle.dumps` results, strings produced by `json.dumps` (`vjsonText`),
and any other object (`vexotic`, with its truthiness and type name). -/
inductive PyV where
  | vstr (s : String) : PyV
  | vint (n : Int) : PyV
  | vfloat (q : ℚ) : PyV
  | vf32 (q : ℚ) : PyV
  | vbool (b : Bool) : PyV
  | vnone : PyV
  | vlist (l : PyVs) : PyV
  | vdict (l : PyKVs) : PyV
  | varr (l : PyVs) : PyV
  | vdf (rows : PyVs) : PyV
  | vpickled (v : PyV) : PyV
  | vjsonText (j : J) : PyV
  | vexotic (truthy : Bool) (typeName : String) : PyV

/-- A list of Python values (spelled out so that structural recursion
over the nested occurrences in `PyV` is available). -/
inductive PyVs where
  | nil : PyVs
  | cons (hd : PyV) (tl : PyVs) : PyVs

/-- A list of string-keyed pairs of Python values (dict items). -/
inductive PyKVs where
  | nil : PyKVs
  | cons (k : String) (v : PyV) (tl : PyKVs) : PyKVs
end

def PyVs.ofList : List PyV → PyVs
  | [] => .nil
  | h :: t => .cons h (ofList t)

def PyVs.toList : PyVs → List PyV
  | .nil => []
  | .cons h t => h :: toList t

def PyVs.isEmpty : PyVs → Bool
  | .nil => true
  | .cons _ _ => false

/-- Python truthiness (`if not doc`).  For numpy arrays and DataFrames
Python would raise on ambiguous truth values; no claim feeds those types
to a truthiness test, and the model simply uses non-emptiness there. -/
def pyTruthy : PyV → Bool
  | .vstr s => s ≠ ""
  | .vint n => n ≠ 0
  | .vfloat q => q ≠ 0
  | .vf32 q => q ≠ 0
  | .vbool b => b
  | .vnone => false
  | .vlist l => ¬ l.isEmpty
  | .vdict l => match l with | .nil => false | .cons _ _ _ => true
  | .varr l => ¬ l.isEmpty
  | .vdf r => ¬ r.isEmpty
  | .vpickled _ => true
  | .vjsonText _ => true
  | .vexotic t _ => t

/-- Python `isinstance(x, str)` (a `json.dumps` result is a `str`). -/
def pyIsStr : PyV → Bool
  | .vstr _ => true
  | .vjsonText _ => true
  | _ => false

/-- Python `isinstance(x, list)`. -/
def pyIsList : PyV → Bool
  | .vlist _ => true
  | _ => false

/-- Python `type(x)` as displayed in the error message of line 100. -/
def pyTypeName : PyV → String
  | .vstr _ => "str"
  | .vint _ => "int"
  | .vfloat _ => "float"
  | .vf32 _ => "numpy.float32"
  | .vbool _ => "bool"
  | .vnone => "NoneType"
  | .vlist _ => "list"
  | .vdict _ => "dict"
  | .varr _ => "numpy.ndarray"
  | .vdf _ => "DataFrame"
  | .vpickled _ => "bytes"
  | .vjsonText _ => "str"
  | .vexotic _ n => n

/-- Loose model of Python's `str(x)`.  Only the string case is ever
compared by a claim; for the other constructors any fixed rendering
works, so a shallow descriptive one is used. -/
def pyStrOf : PyV → String
  | .vstr s => s
  | .vint n => toString n
  | .vfloat q => toString q
  | .vf32 q => toString q
  | .vbool b => if b then "True" else "False"
  | .vnone => "None"
  | .vlist _ => "<list>"
  | .vdict _ => "<dict>"
  | .varr _ => "<ndarray>"
  | .vdf _ => "<DataFrame>"
  | .vpickled _ => "<bytes>"
  | .vjsonText _ => "<json-str>"
  | .vexotic _ n => "<" ++ n ++ ">"

mutual
/-- Modelled from the spec: serialization tier used at line 481, plain
`json.dumps` with the `default=lambda obj: ...` hook.  The hook maps
float-like objects to `float`, integer-likes to `int`, arrays to lists
and everything else to `str(obj)`, so this encoder is total. -/
def toJDefault : PyV → J
  | .vstr s => .jstr s
  | .vint n => .jint n
  | .vfloat q => .jfloat q
  | .vf32 q => .jfloat q
  | .vbool b => .jbool b
  | .vnone => .jnull
  | .vlist l => .jlist (toJDefaultL l)
  | .vdict l => .jobj (toJDefaultKV l)
  | .varr l => .jlist (toJDefaultL l)
  | .vdf r => .jstr (pyStrOf (.vdf r))
  | .vpickled v => .jstr (pyStrOf (.vpickled v))
  | .vjsonText j => .jstr (pyStrOf (.vjsonText j))
  | .vexotic t n => .jstr (pyStrOf (.vexotic t n))

def toJDefaultL : PyVs → List J
  | .nil => []
  | .cons h t => toJDefault h :: toJDefaultL t

def toJDefaultKV : PyKVs → List (String × J)
  | .nil => []
  | .cons k v t => (k, toJDefault v) :: toJDefaultKV t
end

mutual
/-- Plain `json.dumps` with no encoder and no default hook: fails with a
`TypeError` on any non-native leaf (numpy scalars and arrays,
DataFrames, bytes, arbitrary objects). -/
def dumpsPlain : PyV → Except Unit J
  | .vstr s => .ok (.jstr s)
  | .vint n => .ok (.jint n)
  | .vfloat q => .ok (.jfloat q)
  | .vf32 _ => .error ()
  | .vbool b => .ok (.jbool b)
  | .vnone => .ok .jnull
  | .vlist l => do return .jlist (← dumpsPlainL l)
  | .vdict l => do return .jobj (← dumpsPlainKV l)
  | .varr _ => .error ()
  | .vdf _ => .error ()
  | .vpickled _ => .error ()
  | .vjsonText j => .ok (.jstr (pyStrOf (.vjsonText j)))
  | .vexotic _ _ => .error ()

def dumpsPlainL : PyVs → Except Unit (List J)
  | .nil => .ok []
  | .cons h t => do return (← dumpsPlain h) :: (← dumpsPlainL t)

def dumpsPlainKV : PyKVs → Except Unit (List (String × J))
  | .nil => .ok []
  | .cons k v t => do return (k, ← dumpsPlain v) :: (← dumpsPlainKV t)
end

mutual
/-- Modelled from the spec: `json.dumps(..., cls=NumpyEncoder)`, the
general encoder with a numeric-array-aware type hook (`utils.py`, not
under `src/`).  It additionally understands numpy scalars and arrays but
still fails on DataFrames, bytes and arbitrary objects. -/
def dumpsNumpy : PyV → Except Unit J
  | .vstr s => .ok (.jstr s)
  | .vint n => .ok (.jint n)
  | .vfloat q => .ok (.jfloat q)
  | .vf32 q => .ok (.jfloat q)
  | .vbool b => .ok (.jbool b)
  | .vnone => .ok .jnull
  | .vlist l => do return .jlist (← dumpsNumpyL l)
  | .vdict l => do return .jobj (← dumpsNumpyKV l)
  | .varr l => do return .jlist (← dumpsNumpyL l)
  | .vdf _ => .error ()
  | .vpickled _ => .error ()
  | .vjsonText j => .ok (.jstr (pyStrOf (.vjsonText j)))
  | .vexotic _ _ => .error ()

def dumpsNumpyL : PyVs → Except Unit (List J)
  | .nil => .ok []
  | .cons h t => do return (← dumpsNumpy h) :: (← dumpsNumpyL t)

def dumpsNumpyKV : PyKVs → Except Unit (List (String × J))
  | .nil => .ok []
  | .cons k v t => do return (k, ← dumpsNumpy v) :: (← dumpsNumpyKV t)
end

mutual
/-- Modelled from the spec: `utils.convert_float32_to_float` (not under
`src/`), the explicit per-type conversion tier — numpy `float32` leaves
become plain floats and numeric arrays become nested plain lists; it
raises on objects it has no conversion for. -/
def convertF32 : PyV → Except Unit PyV
  | .vstr s => .ok (.vstr s)
  | .vint n => .ok (.vint n)
  | .vfloat q => .ok (.vfloat q)
  | .vf32 q => .ok (.vfloat q)
  | .vbool b => .ok (.vbool b)
  | .vnone => .ok .vnone
  | .vlist l => do return .vlist (← convertF32L l)
  | .vdict l => do return .vdict (← convertF32KV l)
  | .varr l => do return .vlist (← convertF32L l)
  | .vdf _ => .error ()
  | .vpickled v => .ok (.vpickled v)
  | .vjsonText j => .ok (.vjsonText j)
  | .vexotic _ _ => .error ()

def convertF32L : PyVs → Except Unit PyVs
  | .nil => .ok .nil
  | .cons h t => do return .cons (← convertF32 h) (← convertF32L t)

def convertF32KV : PyKVs → Except Unit PyKVs
  | .nil => .ok .nil
  | .cons k v t => do return .cons k (← convertF32 v) (← convertF32KV t)
end

mutual
/-- Modelled from the spec: `utils.safe_serialize_for_postgres` (not
under `src/`), the store-compatibility conversion applied to every field
of the deep-copied record — numeric-array values must not survive into
the database variant, scalars and strings pass through. -/
def safeSerialize : PyV → PyV
  | .vstr s => .vstr s
  | .vint n => .vint n
  | .vfloat q => .vfloat q
  | .vf32 q => .vfloat q
  | .vbool b => .vbool b
  | .vnone => .vnone
  | .vlist l => .vlist (safeSerializeL l)
  | .vdict l => .vdict (safeSerializeKV l)
  | .varr l => .vlist (safeSerializeL l)
  | .vdf r => .vlist (safeSerializeL r)
  | .vpickled v => .vpickled v
  | .vjsonText j => .vjsonText j
  | .vexotic t n => .vstr (pyStrOf (.vexotic t n))

def safeSerializeL : PyVs → PyVs
  | .nil => .nil
  | .cons h t => .cons (safeSerialize h) (safeSerializeL t)

def safeSerializeKV : PyKVs → PyKVs
  | .nil => .nil
  | .cons k v t => .cons k (safeSerialize v) (safeSerializeKV t)
end

/-- Gensim `Dictionary` object, kept abstract up to its length (checked
at line 147) and an identifying tag; `doc2bow` behaviour lives in the
environment. -/
structure DictObj where
  size : Nat
  tag : String
  deriving Repr, DecidableEq

/-- A trained or injected LDA model, abstract up to an identifying tag
(every use of the model goes through an environment function). -/
abbrev LdaModel := String

/-- A bag-of-words document: `(token-id, count)` pairs. -/
abbrev Bow := List (Nat × Nat)

/-- The `Union[str, float]` type of the `alpha_str` / `beta_str`
parameters. -/
inductive StrOrNum where
  | s (v : String) : StrOrNum
  | num (q : ℚ) : StrOrNum
  deriving Repr, DecidableEq

def StrOrNum.pyStr : StrOrNum → String
  | .s v => v
  | .num q => toString q

/-- The serialized-model accumulator: for validation/test phases the
source stores raw `pickle.dumps` bytes (line 212), for the train phase a
`dask.delayed(pickle.dumps)` task (line 233).  Line 714 calls
`.compute()` on it, which only exists in the delayed case. -/
inductive LdaBytes where
  | eager (m : LdaModel) : LdaBytes
  | delayedTask (m : LdaModel) : LdaBytes

/-- Status a submitted dask future can settle into within one
`wait` window: finished with a value, finished with an exception, or
still pending when the window closes. -/
inductive FutOutcome where
  | finished (v : PyV) : FutOutcome
  | errored : FutOutcome
  | pending : FutOutcome

def FutOutcome.isPending : FutOutcome → Bool
  | .pending => true
  | _ => false

def FutOutcome.isErrored : FutOutcome → Bool
  | .errored => true
  | _ => false

/-- An element of `corpus_batches`.  On the normal path each element is
a contiguous slice of the corpus (`batchB`); on the heuristic-failure
path line 415 assigns `corpus_batches = corpus_data[phase]`, so each
element is a single bare document (`singleB`). -/
inductive BElem where
  | batchB (b : List Bow) : BElem
  | singleB (d : Bow) : BElem
  deriving Repr, DecidableEq

/-- Log events emitted by the distributed-batch block (only the events
the claims count are distinguished). -/
inductive LogE where
  | futureFailed (i : Nat) : LogE
  | retrying (n : Nat) : LogE
  | unresolvedSummary (n : Nat) : LogE
  | unresolvedAfterRetry (i : Nat) : LogE
  | fetchError : LogE
  deriving Repr, DecidableEq

/-- Number of per-future `Unresolved task after retry` log entries
(line 455). -/
def countUnresolved (logs : List LogE) : Nat :=
  (logs.filter fun e => match e with
    | .unresolvedAfterRetry _ => true
    | _ => false).length

/-- Coherence statistics returned by
`mathstats.calculate_coherence_metrics`. -/
structure CohData where
  score : ℚ
  mean : ℚ
  median : ℚ
  std : ℚ
  mode : ℚ
  deriving Repr, DecidableEq

/-- The external collaborators of `train_model_v2`.  Each field models,
from its interface in the spec (§6) and its call sites, a function of a
module that is not part of the embedded source: gensim
(`mkDictionary`, `doc2bow`, `trainLda`, `showTopic`, `showTopicsAll`,
`topTopics`), `alpha_eta`, `batch_estimation`, `mathstats`,
`process_futures`, numpy's seeded generator, the dask scheduler
(future outcomes, indexed by submission), `pickle`, hashing, the clock
and `random`.  Fallible collaborators return `Except`. -/
structure Env where
  mkDictionary : List PyV → Except Unit DictObj
  doc2bow : DictObj → List PyV → Except Unit Bow
  calculateNumericAlpha : StrOrNum → Nat → ℚ
  calculateNumericBeta : StrOrNum → Nat → ℚ
  trainLda : List Bow → DictObj → Nat → ℚ → ℚ → Int → Nat → Nat → Nat → Nat → Nat → Bool →
    Except Unit LdaModel
  estimateBatches : String → Nat → Nat → ℚ → Nat → Except Unit Nat
  calcPerplexityThreshold : LdaModel → List Bow → ℚ → ℚ
  calcTorchCoherence : String → LdaModel → List PyV → DictObj → Except Unit ℚ
  calcCoherenceMetrics : ℚ → ℚ → LdaModel → DictObj → List PyV → Nat → Nat → Except Unit CohData
  calcConvergence : LdaModel → List Bow → ℚ → ℚ
  calcPerplexityScore : LdaModel → List Bow → ℚ → ℚ
  extractTopics : LdaModel → Int → Except Unit (Except Unit PyV)
  npChoiceIdx : Nat → Nat → Nat
  futureOutcome1 : Nat → BElem → FutOutcome
  futureOutcome2 : Nat → BElem → FutOutcome
  fetchFails : Nat → Bool
  showTopic : LdaModel → Except Unit PyV
  showTopicsAll : LdaModel → Except Unit PyV
  topTopics : LdaModel → List PyV → Nat → Except Unit PyV
  randUniform : ℚ
  randInt : Int
  nowStr : String
  nowStr2 : String
  md5 : String → String
  sha256 : String → String

/-- The parameters of `train_model_v2` (line 59).  `validation_test_data`
is the already-resolved document collection (`dask.compute` at line 76 is
the resolution of the deferred handle). -/
structure Params where
  data_source : String
  n_topics : Nat
  alpha_str : StrOrNum
  beta_str : StrOrNum
  zip_path : String
  pylda_path : String
  pca_path : String
  pca_gpu_path : String
  unified_dictionary : DictObj
  validation_test_data : List PyV
  phase : String
  random_state : Int
  passes : Nat
  iterations : Nat
  update_every : Nat
  eval_every : Nat
  cores : Nat
  per_word_topics : Bool
  ldamodel_parameter : LdaModel

/-- The shared default metric score (line 204). -/
def defaultScore : ℚ := 1/4

/-!  Document Normalizer, lines 84-113.  -/

/-- Structural failure raised during normalization: `badType` is the
`ValueError` of line 100 (carries the offending index and the type
name), `badStructure` the `ValueError` of line 106 (carries only the
index). -/
inductive NormErr where
  | badType (idx : Nat) (typeName : String) : NormErr
  | badStructure (idx : Nat) : NormErr
  deriving Repr, DecidableEq

/-- Token coercion `str(token)` inside the list comprehension of
line 95. -/
def coerceToken (t : PyV) : PyV := .vstr (pyStrOf t)

/-- One iteration of the first normalization loop (lines 84-100):
`.ok none` leaves a falsy item in place (skip), `.ok (some d2)`
replaces the item by its coercion (a string becomes a one-token list, a
list keeps its truthy tokens cast to `str`), and `.error` is the raised
`ValueError` of line 100. -/
def normStep (i : Nat) (d : PyV) : Except NormErr (Option PyV) :=
  if pyTruthy d = false then .ok none
  else match d with
    | .vstr s => .ok (some (.vlist (.cons (.vstr s) .nil)))
    | .vjsonText j => .ok (some (.vlist (.cons (.vjsonText j) .nil)))
    | .vlist l => .ok (some (.vlist (.ofList ((l.toList.filter pyTruthy).map coerceToken))))
    | _ => .error (.badType i (pyTypeName d))

/-- First normalization loop (lines 84-100), mutating the list in
place; an error aborts the loop, leaving the offending item and the
rest of the list untouched. -/
def normPass1 (i : Nat) : List PyV → List PyV × Option NormErr
  | [] => ([], none)
  | d :: rest =>
    match normStep i d with
    | .error e => (d :: rest, some e)
    | .ok none =>
      let (r, e) := normPass1 (i + 1) rest
      (d :: r, e)
    | .ok (some d2) =>
      let (r, e) := normPass1 (i + 1) rest
      (d2 :: r, e)

/-- Second structural pass (lines 103-106): every entry must be a list
all of whose tokens are strings. -/
def normPass2 (i : Nat) : List PyV → Option NormErr
  | [] => none
  | d :: rest =>
    match d with
    | .vlist l =>
      if l.toList.all pyIsStr then normPass2 (i + 1) rest
      else some (.badStructure i)
    | _ => some (.badStructure i)

/-- The whole normalization `try` block (lines 74-113).  The raised
`ValueError` is caught at line 112 and only logged, so the (partially
mutated) list survives together with the swallowed error. -/
def normalizePasses (raw : List PyV) : List PyV × Option NormErr :=
  match normPass1 0 raw with
  | (docs, some e) => (docs, some e)
  | (docs, none) => (docs, normPass2 0 docs)

/-- Singly-nested unwrap (lines 122-133): a one-element batch whose
element is a list of lists is flattened one level; a one-element batch
whose element is a list containing a non-list yields `None` (line 128);
finally every surviving entry must be a list (line 131), otherwise the
call returns `None`. -/
def unwrapAndCheck (docs : List PyV) : Option (List PyV) :=
  let docs :=
    match docs with
    | [d] =>
      match d with
      | .vlist l =>
        if l.toList.all pyIsList then some l.toList else none
      | _ => some docs
    | _ => some docs
  match docs with
  | none => none
  | some ds => if ds.all pyIsList then some ds else none

/-!  Corpus Builder, lines 152-190.  -/

/-- Outcome of the bag-of-words loop: the phase corpus, the success
counter `number_of_documents` and the failure counter
`failed_convert_token_to_bow`. -/
structure BowOut where
  corpus : List Bow
  nDocs : Nat
  nFailed : Nat
  deriving Repr, DecidableEq

/-- Python's `list(dict)`: the keys. -/
def pyDictKeys : PyKVs → List PyV
  | .nil => []
  | .cons k _ t => .vstr k :: pyDictKeys t

/-- One iteration of the loop at lines 157-184: a non-list is passed to
`list(...)` (strings decompose into characters, dicts into keys, arrays
into elements, non-iterables raise and are counted as failed); an empty
token list is skipped and counted; otherwise `doc2bow` against the given
dictionary either yields a corpus entry or is counted as failed. -/
def convertDoc (env : Env) (dict : DictObj) (d : PyV) : Option Bow :=
  let toks : Option (List PyV) :=
    match d with
    | .vlist l => some l.toList
    | .vstr s => some (s.toList.map fun c => .vstr (String.singleton c))
    | .vjsonText j => some ((pyStrOf (.vjsonText j)).toList.map fun c => .vstr (String.singleton c))
    | .vdict kvs => some (pyDictKeys kvs)
    | .varr l => some l.toList
    | _ => none
  match toks with
  | none => none
  | some l => if l.isEmpty then none else (env.doc2bow dict l).toOption

/-- The bag-of-words loop (lines 157-184): failures are skipped and
counted, successes are appended in document order. -/
def bowStage (env : Env) (dict : DictObj) : List PyV → BowOut
  | [] => ⟨[], 0, 0⟩
  | d :: rest =>
    let r := bowStage env dict rest
    match convertDoc env dict d with
    | some bow => ⟨bow :: r.corpus, r.nDocs + 1, r.nFailed⟩
    | none => ⟨r.corpus, r.nDocs, r.nFailed + 1⟩

/-- Python's `corpus[i:i+bs] for i in range(0, len(corpus), bs)`
chunking, with explicit fuel so that the definition is structurally
recursive (the call site guarantees `bs ≥ 1`). -/
def chunkFuel (bs : Nat) : Nat → List α → List (List α)
  | 0, _ => []
  | _, [] => []
  | fuel + 1, l => l.take bs :: chunkFuel bs fuel (l.drop bs)

def chunkList (l : List α) (bs : Nat) : List (List α) :=
  chunkFuel bs l.length l

/-!  Model Stage Selector, lines 210-242.  -/

/-- Phase dispatch: validation/test reuse the injected model and store
its eagerly pickled bytes; train fits a model (note line 230 hardcodes
`per_word_topics=True`) and stores a delayed pickling task; a training
failure is re-raised (line 240); any other phase calls `sys.exit()`. -/
def modelStage (env : Env) (p : Params) (corpus : List Bow) (chunk : Nat) (nAlpha nBeta : ℚ) :
    Except String (LdaModel × LdaBytes) :=
  if p.phase = "validation" ∨ p.phase = "test" then
    .ok (p.ldamodel_parameter, .eager p.ldamodel_parameter)
  else if p.phase = "train" then
    match env.trainLda corpus p.unified_dictionary p.n_topics nAlpha nBeta p.random_state
        p.passes p.iterations p.update_every p.eval_every chunk true with
    | .ok m => .ok (m, .delayedTask m)
    | .error _ => .error "ModelTrainingError"
  else .error "SystemExit"

/-!  Coherence family, lines 256-298.  -/

/-- The fixed candidate range `np.linspace(0.01, 0.5, 10)` of
line 297. -/
def fallbackCoherenceValues : List ℚ :=
  (List.range 10).map fun k => 1/100 + k * (49/900)

/-- The draw `np.random.default_rng(8241984).choice(values)`:
numpy's seeded generator deterministically selects one index, modelled
by the environment's `npChoiceIdx` (reduced into range, as numpy
guarantees). -/
def npChoice (env : Env) (seed : Nat) (l : List ℚ) : ℚ :=
  l.getD (env.npChoiceIdx seed l.length % l.length) 0

/-- Primary coherence estimate (lines 260-268): the eager
`calculate_torch_coherence` call, falling back to the default score
when it raises. -/
def cohPrimary (env : Env) (ds : String) (model : LdaModel) (docs : List PyV)
    (dict : DictObj) : ℚ :=
  match env.calcTorchCoherence ds model docs dict with
  | .ok v => v
  | .error _ => defaultScore

/-- Resampled coherence statistics (lines 270-298): computed by
`calculate_coherence_metrics` from the primary estimate; if that
computation raises, all five statistics collapse to the single seeded
draw from the fixed candidate range (lines 293-298). -/
def coherenceStage (env : Env) (ds : String) (model : LdaModel) (docs : List PyV)
    (dict : DictObj) (cores maxAttempts : Nat) : CohData :=
  match env.calcCoherenceMetrics defaultScore (cohPrimary env ds model docs dict)
      model dict docs cores maxAttempts with
  | .ok d => d
  | .error _ =>
    let v := npChoice env 8241984 fallbackCoherenceValues
    ⟨v, v, v, v, v⟩

/-!  Topic extraction and its serialization cascade, lines 323-384.  -/

/-- The initialization placeholder of lines 324-326,
`json.dumps([["not_initialized_yet"], ["no_real_data"]])`. -/
def placeholderJ : J :=
  .jlist [.jlist [.jstr "not_initialized_yet"], .jlist [.jstr "no_real_data"]]

/-- The replacement value installed at lines 345 and 357 when topic
extraction (or its first serialization) fails. -/
def failedTopicsVal : PyV :=
  .vlist (.cons (.vlist (.cons (.vstr "failed_extract_topics_with_get_topic_terms") .nil))
    (.cons (.vlist (.cons (.vstr "not_initialized_yet") .nil))
      (.cons (.vlist (.cons (.vstr "no_real_data") .nil)) .nil)))

/-- The structured error sentinel
`json.dumps({"error": ..., "phase": phase})` of lines 382/513/608. -/
def sentinelJ (phase : String) : J :=
  .jobj [("error", .jstr "Validation data generation failed"), ("phase", .jstr phase)]

/-- Numpy's `astype(float).tolist()`: numeric elements become plain
floats, anything else raises. -/
def astypeFloatL : PyVs → Except Unit (List PyV)
  | .nil => .ok []
  | .cons h t =>
    match h with
    | .vint n => do return .vfloat n :: (← astypeFloatL t)
    | .vfloat q => do return .vfloat q :: (← astypeFloatL t)
    | .vf32 q => do return .vfloat q :: (← astypeFloatL t)
    | _ => .error ()

/-- The per-type third serialization tier shared by the cascades:
`np.ndarray` → `astype(float).tolist()` then plain dumps; DataFrame →
`applymap` then plain `json.dumps` of the frame itself, which always
fails; otherwise plain `json.dumps`. -/
def perTypeDump (v : PyV) : Except Unit J :=
  match v with
  | .varr l => do dumpsPlain (.vlist (.ofList (← astypeFloatL l)))
  | .vdf r => dumpsPlain (.vdf r)
  | _ => dumpsPlain v

/-- The fallback cascade of lines 356-382, entered when computing or
`NumpyEncoder`-dumping the extracted topics raised: the computed value
is replaced by `failedTopicsVal`, and `convert_float32_to_float` of it
is assigned to `topics_results_jsonb` directly — as a structure, not as
an encoded string; only if that conversion raises do the dump tiers and
finally the sentinel run. -/
def topicsFallbackCascade (phase : String) : PyV :=
  match convertF32 failedTopicsVal with
  | .ok v => v
  | .error _ =>
    match dumpsNumpy failedTopicsVal with
    | .ok j => .vjsonText j
    | .error _ =>
      match perTypeDump failedTopicsVal with
      | .ok j => .vjsonText j
      | .error _ => .vjsonText (sentinelJ phase)

/-- Topic extraction (lines 337-384).  Returns the extraction task as
it stands for the later re-`compute` at line 639 (`none` when creating
the task itself raised, so that line 639 hits an unbound
`topics_to_store_task`), together with `topics_results_jsonb`. -/
def topicsStage (env : Env) (phase : String) (model : LdaModel) (numWords : Int) :
    Option (Except Unit PyV) × PyV :=
  match env.extractTopics model numWords with
  | .error _ =>
    (none,
      match dumpsNumpy failedTopicsVal with
      | .ok j => .vjsonText j
      | .error _ => .vjsonText (sentinelJ phase))
  | .ok task =>
    match task with
    | .ok v =>
      match dumpsNumpy v with
      | .ok j => (some task, .vjsonText j)
      | .error _ => (some task, topicsFallbackCascade phase)
    | .error _ => (some task, topicsFallbackCascade phase)

/-!  Distributed Batch Executor, lines 388-477.  -/

/-- Batch-size estimation and partitioning (lines 399-415): the
heuristic is called with bounds `[1, 15]`, memory-limit ratio `0.4` and
CPU factor `3`, clamped to the corpus length, with `5` substituted for
zero; if the heuristic raises, line 415 assigns
`corpus_batches = corpus_data[phase]`, i.e. one element per bare
document, and `batch_size` keeps its line-398 initializer `-1`. -/
def computeBatches (env : Env) (ds : String) (corpus : List Bow) : List BElem × Int :=
  match env.estimateBatches ds 1 15 (2/5) 3 with
  | .ok est =>
    let bs := min corpus.length est
    let bs := if bs = 0 then 5 else bs
    ((chunkList corpus bs).map .batchB, (bs : Int))
  | .error _ => (corpus.map .singleB, -1)

/-- Index each submitted batch by its submission position. -/
def enumIdx (i : Nat) : List BElem → List (Nat × BElem)
  | [] => []
  | b :: t => (i, b) :: enumIdx (i + 1) t

/-- The fetch loop of line 465,
`[r.result(timeout=120) for r in all_done_batches]`: retrieving the
result of an errored future re-raises its exception, and a retrieval
can itself time out (`fetchFails`); the comprehension is atomic, so the
first failure aborts the whole list (`none`). -/
def processFetch (env : Env) : List (Nat × FutOutcome) → Option (List PyV)
  | [] => some []
  | (i, o) :: rest =>
    match o with
    | .finished v =>
      if env.fetchFails i then none
      else (processFetch env rest).map (v :: ·)
    | _ => none

/-- The submit/wait/retry/fetch block (lines 417-469), over the indexed
batches.  `wait(futures, timeout=300)` partitions futures into done
(success or error) and not-done (still pending) — the contract the
source relies on and the spec states in §4.5 steps 4-6.  Each errored
done future is logged (lines 439-442); pending futures are retried once
and waited for again, and whatever is still pending is logged per
future as unresolved (lines 444-455); results of all done futures are
fetched by the atomic comprehension of line 465, whose failure is
caught at line 468, leaving the line-400 initializer `[]`. -/
def execFutures (env : Env) (pairs : List (Nat × BElem)) : List PyV × List LogE :=
  let done1 := pairs.filterMap fun p =>
    match env.futureOutcome1 p.1 p.2 with
    | .pending => none
    | o => some (p.1, o)
  let notDone1 := pairs.filter fun p => (env.futureOutcome1 p.1 p.2).isPending
  let logs1 := done1.filterMap fun q =>
    if q.2.isErrored then some (LogE.futureFailed q.1) else none
  let retryOut := notDone1.map fun p => (p.1, env.futureOutcome2 p.1 p.2)
  let done2 := retryOut.filter fun q => !q.2.isPending
  let notDone2 := retryOut.filter fun q => q.2.isPending
  let logs2 : List LogE :=
    if notDone1.isEmpty then []
    else
      LogE.retrying notDone1.length ::
        ((if notDone2.isEmpty then [] else [LogE.unresolvedSummary notDone2.length]) ++
          notDone2.map fun q => LogE.unresolvedAfterRetry q.1)
  let allDone := done1 ++ done2
  match processFetch env allDone with
  | some vs => (vs, logs1 ++ logs2)
  | none => ([], logs1 ++ logs2 ++ [LogE.fetchError])

/-- Outcome of the whole distributed-batch block. -/
structure BatchOut where
  results : List PyV
  logs : List LogE
  batchSize : Int
  nBatches : Nat

/-- The whole block of lines 388-477.  Within the model every failure
mode of the block is caught by an inner handler (estimation at 412,
submission at 430, fetching at 468), so the outer handler of line 475
that would install the single-element sentinel list never fires. -/
def batchStage (env : Env) (ds : String) (corpus : List Bow) : BatchOut :=
  let (belems, bsize) := computeBatches env ds corpus
  let (res, logs) := execFutures env (enumIdx 0 belems)
  ⟨res, logs, bsize, belems.length⟩

/-!  Resilient serialization of the validation results, lines 480-513.  -/

/-- The serialization cascade applied to
`validation_results_to_store`: `json.dumps` with the inline
`default=` hook (line 481), then `NumpyEncoder` (line 494), then the
per-type tier (lines 499-509), then the sentinel (line 513).  The first
tier's hook ends in `str(obj)` and is therefore total, so the cascade
always stops at tier one. -/
def serializeValidationResults (phase : String) (results : List PyV) : PyV :=
  match (Except.ok (toJDefault (.vlist (.ofList results))) : Except Unit J) with
  | .ok j => .vjsonText j
  | .error _ =>
    match dumpsNumpy (.vlist (.ofList results)) with
    | .ok j => .vjsonText j
    | .error _ =>
      match perTypeDump (.vlist (.ofList results)) with
      | .ok j => .vjsonText j
      | .error _ => .vjsonText (sentinelJ phase)

/-!  The guarded block of lines 516-608.  -/

/-- The body of lines 517-608, reachable only when the serialized
validation payload is falsy (an empty string).  It re-validates the
batch and the model with bare `raise` statements (lines 524-552), then
computes and serializes topic words through `show_topic` (train) or
`top_topics` (other phases) with its own cascade (lines 553-608).
Because the guard is provably never taken (`serializeValidationResults`
always yields a nonempty `json.dumps` string), the claims only rely on
this block being skipped; it is still modelled at statement
granularity. -/
def deadBlockTopicWords (env : Env) (model : LdaModel) (docs : List PyV) (phase : String) :
    Except String PyV :=
  if docs.isEmpty then .error "ValueError: Batch documents are empty!"
  else if ¬ (docs.all fun d => pyIsList d &&
      (match d with | .vlist l => l.toList.all pyIsStr | _ => false)) then
    .error "ValueError: Batch documents have an incorrect structure!"
  else
    match env.showTopic model with
    | .error _ => .error "show_topic raised"
    | .ok _ =>
      match env.showTopic model with
      | .error _ => .error "show_topic raised"
      | .ok _ =>
        let topicWords : Except Unit PyV :=
          if phase = "train" then env.showTopicsAll model
          else match env.topTopics model docs 10 with
            | .ok topics => .ok topics
            | .error e => .error e
        match topicWords with
        | .ok tw =>
          (match convertF32 tw with
          | .ok conv =>
            (match dumpsPlain conv with
            | .ok j => .ok (.vjsonText j)
            | .error _ =>
              (match dumpsNumpy conv with
              | .ok j => .ok (.vjsonText j)
              | .error _ =>
                match perTypeDump conv with
                | .ok j => .ok (.vjsonText j)
                | .error _ => .ok (.vjsonText (sentinelJ phase))))
          | .error _ => .error "NameError: topics_to_store")
        | .error _ => .error "NameError: topics_to_store"

/-- The guard of line 516: `top_topics` keeps the line-325 placeholder
unless the serialized validation payload is falsy, in which case the
lines 517-608 block runs. -/
def topicWordsStage (env : Env) (model : LdaModel) (docs : List PyV) (phase : String)
    (valJsonb : PyV) : Except String PyV :=
  if pyTruthy valJsonb then .ok (.vjsonText placeholderJ)
  else deadBlockTopicWords env model docs phase

/-!  Identity key and paths, lines 615-636.  -/

/-- The content/time-derived identity key (lines 615-629): hash of the
two random draws, hash of the microsecond timestamp, and the hash of
their concatenation. -/
def identityKey (env : Env) : String :=
  let combined := toString env.randUniform ++ "_" ++ toString env.randInt
  let randomHash := env.md5 combined
  let timeHash := env.md5 env.nowStr
  env.md5 (randomHash ++ timeHash)

/-- Output path fragments (lines 632-636), `os.path.join` with `/`. -/
def joinPath (root phase : String) (nTopics : Nat) : String :=
  root ++ "/" ++ phase ++ "/" ++ "number_of_topics-" ++ toString nTopics

/-!  Metadata Assembler, lines 639-737.  -/

/-- Word counting at line 330:
`sum(sum(count for _, count in doc) for doc in corpus)`. -/
def corpusWordCount (corpus : List Bow) : Nat :=
  (corpus.map fun doc => (doc.map Prod.snd).sum).sum

/-- Flattening of line 654; at this point every surviving document is a
list. -/
def flattenDocs (docs : List PyV) : List PyV :=
  docs.flatMap fun d =>
    match d with
    | .vlist l => l.toList
    | _ => []

/-- Everything the `current_increment_data` literal of lines 664-722
needs. -/
structure RecArgs where
  timeKey : String
  phase : String
  startTime : String
  endTime : String
  batchSize : Int
  numWordField : Int
  textFlat : PyV
  textJson : PyV
  maxAttempts : Nat
  topTopics : PyV
  topicsWords : PyV
  validationResult : PyV
  sha : String
  md : String
  textPath : String
  pcaPath : String
  pcaGpuPath : String
  pyldaPath : String
  nTopics : Nat
  alphaStr : String
  nAlpha : ℚ
  betaStr : String
  nBeta : ℚ
  passes : Nat
  iterations : Nat
  updateEvery : Nat
  evalEvery : Nat
  chunkStr : String
  randomState : Int
  perWordTopics : Bool
  convergence : ℚ
  nll : ℚ
  perplexity : ℚ
  coherence : ℚ
  meanCoherence : ℚ
  medianCoherence : ℚ
  modeCoherence : ℚ
  stdCoherence : ℚ
  perplexityThreshold : ℚ
  ldaModelBytes : PyV
  corpusToPickle : String
  dictionaryBytes : PyV

/-- The `current_increment_data` dict literal (lines 664-722), in source
order and with the source's keys. -/
def mkRecordData (a : RecArgs) : List (String × PyV) :=
  [("time_key", .vstr a.timeKey),
   ("type", .vstr a.phase),
   ("start_time", .vstr a.startTime),
   ("end_time", .vstr a.endTime),
   ("num_workers", .vnone),
   ("batch_size", .vint a.batchSize),
   ("num_word", .vint a.numWordField),
   ("text", a.textFlat),
   ("text_json", a.textJson),
   ("max_attempts", .vint a.maxAttempts),
   ("top_topics", a.topTopics),
   ("topics_words", a.topicsWords),
   ("validation_result", a.validationResult),
   ("text_sha256", .vstr a.sha),
   ("text_md5", .vstr a.md),
   ("text_path", .vstr a.textPath),
   ("pca_path", .vstr a.pcaPath),
   ("pca_gpu_path", .vstr a.pcaGpuPath),
   ("pylda_path", .vstr a.pyldaPath),
   ("topics", .vint a.nTopics),
   ("alpha_str", .vstr a.alphaStr),
   ("n_alpha", .vfloat a.nAlpha),
   ("beta_str", .vstr a.betaStr),
   ("n_beta", .vfloat a.nBeta),
   ("passes", .vint a.passes),
   ("iterations", .vint a.iterations),
   ("update_every", .vint a.updateEvery),
   ("eval_every", .vint a.evalEvery),
   ("chunksize", .vstr a.chunkStr),
   ("random_state", .vint a.randomState),
   ("per_word_topics", .vbool a.perWordTopics),
   ("convergence", .vfloat a.convergence),
   ("nll", .vfloat a.nll),
   ("perplexity", .vfloat a.perplexity),
   ("coherence", .vfloat a.coherence),
   ("mean_coherence", .vfloat a.meanCoherence),
   ("median_coherence", .vfloat a.medianCoherence),
   ("mode_coherence", .vfloat a.modeCoherence),
   ("std_coherence", .vfloat a.stdCoherence),
   ("perplexity_threshold", .vfloat a.perplexityThreshold),
   ("lda_model", a.ldaModelBytes),
   ("corpus", .vstr a.corpusToPickle),
   ("dictionary", a.dictionaryBytes),
   ("create_pylda", .vnone),
   ("create_pcoa", .vnone),
   ("create_pca_gpu", .vnone)]

/-- The returned `db_data` (lines 725-737): a deep copy of the record
with every value passed through the store-compatibility conversion. -/
def mkDbRecord (a : RecArgs) : List (String × PyV) :=
  (mkRecordData a).map fun q => (q.1, safeSerialize q.2)

/-- Full control flow of `train_model_v2`, producing the data the final
record is assembled from.  `Except.error` is an exception escaping the
function, `.ok none` an aborted invocation (`return None`), `.ok (some
a)` a completed invocation. -/
def trainCore (env : Env) (p : Params) : Except String (Option RecArgs) :=
  -- lines 74-113: normalization, with the raised ValueError swallowed
  let (docs0, _) := normalizePasses p.validation_test_data
  -- line 117: empty batch aborts
  if docs0.isEmpty then .ok none
  else
    -- lines 122-133: unwrap single nesting, require a list of lists
    match unwrapAndCheck docs0 with
    | none => .ok none
    | some docs =>
      -- lines 137-149: phase-local gensim dictionary
      match env.mkDictionary docs with
      | .error _ => .ok none
      | .ok localDict =>
        if localDict.size = 0 then .ok none
        else if ¬ (p.phase = "train" ∨ p.phase = "validation" ∨ p.phase = "test") then
          -- line 190: corpus_data[phase] raises KeyError for unknown phases
          .error "KeyError: corpus_data[phase]"
        else
          -- lines 152-190: bag-of-words conversion against the local dictionary
          let corpusToPickle : String := ""
          let bout := bowStage env localDict docs
          let corpus := bout.corpus
          let chunk := max 1 (corpus.length / 5)
          -- lines 200-201
          let nAlpha := env.calculateNumericAlpha p.alpha_str p.n_topics
          let nBeta := env.calculateNumericBeta p.beta_str p.n_topics
          -- lines 204-208
          let negLogLikelihood := defaultScore
          -- lines 210-242
          match modelStage env p corpus chunk nAlpha nBeta with
          | .error e => .error e
          | .ok mb =>
            let model := mb.1
            let ldaBytes := mb.2
            -- line 246 (computed at the line-639 join)
            let threshold := env.calcPerplexityThreshold model corpus defaultScore
            -- line 258: unprotected heuristic call
            match env.estimateBatches p.data_source 5 50 (2/5) 3 with
            | .error _ => .error "estimate_batches_large_docs_v2 raised"
            | .ok maxAttempts =>
              -- lines 260-298
              let coh := coherenceStage env p.data_source model docs p.unified_dictionary
                p.cores maxAttempts
              -- lines 302-320 (computed at the line-639 join)
              let conv := env.calcConvergence model corpus defaultScore
              let perp := env.calcPerplexityScore model corpus defaultScore
              -- lines 329-335
              let numWords : Int := corpusWordCount corpus
              -- lines 337-384
              let tout := topicsStage env p.phase model numWords
              -- lines 388-477
              let bx := batchStage env p.data_source corpus
              -- lines 480-513
              let valJsonb := serializeValidationResults p.phase bx.results
              -- lines 516-608
              match topicWordsStage env model docs p.phase valJsonb with
              | .error e => .error e
              | .ok topTopicsJsonb =>
                -- lines 615-636
                let key := identityKey env
                -- line 639: forcing the deferred tasks; re-forcing the
                -- extraction task re-raises its failure, and if creation
                -- failed the name is unbound
                match tout.1 with
                | none => .error "NameError: topics_to_store_task is not defined"
                | some tr =>
                  match tr with
                  | .error _ => .error "extraction task raised at dask.compute"
                  | .ok _ =>
                  -- lines 651-662
                  let flat := flattenDocs docs
                  let flatStr := String.intercalate " " (flat.map pyStrOf) ++ key
                  -- line 714: ldamodel_bytes.compute(); raw bytes from the
                  -- validation/test branch have no compute attribute
                  match ldaBytes with
                  | .eager _ => .error "AttributeError: bytes object has no attribute compute"
                  | .delayedTask m =>
                    .ok (some
                      { timeKey := key
                        phase := p.phase
                        startTime := env.nowStr
                        endTime := env.nowStr2
                        batchSize := bx.batchSize
                        numWordField := if numWords ≠ -1 then (flat.length : Int) else -1
                        textFlat := .vpickled (.vlist (.ofList flat))
                        textJson := .vpickled (.vlist (.ofList docs))
                        maxAttempts := maxAttempts
                        topTopics := topTopicsJsonb
                        topicsWords := tout.2
                        validationResult := valJsonb
                        sha := env.sha256 flatStr
                        md := env.md5 flatStr
                        textPath := joinPath p.zip_path p.phase p.n_topics
                        pcaPath := joinPath p.pca_path p.phase p.n_topics
                        pcaGpuPath := joinPath p.pca_gpu_path p.phase p.n_topics
                        pyldaPath := joinPath p.pylda_path p.phase p.n_topics
                        nTopics := p.n_topics
                        alphaStr := p.alpha_str.pyStr
                        nAlpha := nAlpha
                        betaStr := p.beta_str.pyStr
                        nBeta := nBeta
                        passes := p.passes
                        iterations := p.iterations
                        updateEvery := p.update_every
                        evalEvery := p.eval_every
                        chunkStr := toString chunk
                        randomState := p.random_state
                        perWordTopics := p.per_word_topics
                        convergence := conv
                        nll := negLogLikelihood
                        perplexity := perp
                        coherence := coh.score
                        meanCoherence := coh.mean
                        medianCoherence := coh.median
                        modeCoherence := coh.mode
                        stdCoherence := coh.std
                        perplexityThreshold := threshold
                        ldaModelBytes := .vpickled (.vstr m)
                        corpusToPickle := corpusToPickle
                        dictionaryBytes := .vpickled (.vstr localDict.tag) })

/-- The embedded `train_model_v2`: `trainCore` followed by the record
literal (lines 664-722) and the database-variant conversion
(lines 725-737). -/
def trainModelV2 (env : Env) (p : Params) : Except String (Option (List (String × PyV))) :=
  (trainCore env p).map (Option.map mkDbRecord)

/-!  Predicates used to state the claims.  -/

/-- An item the first normalization loop rejects at line 100: truthy
and neither a string nor a list. -/
def truthyInvalid (d : PyV) : Bool :=
  pyTruthy d && !(pyIsStr d) && !(pyIsList d)

/-- Index and type name of the first line-100-rejected item. -/
def firstTruthyInvalidAux (i : Nat) : List PyV → Option (Nat × String)
  | [] => none
  | d :: rest =>
    if truthyInvalid d then some (i, pyTypeName d)
    else firstTruthyInvalidAux (i + 1) rest

def firstTruthyInvalid (raw : List PyV) : Option (Nat × String) :=
  firstTruthyInvalidAux 0 raw

/-- Items whose bare Python truthiness test would itself raise
(`np.ndarray`, `DataFrame`); theorems about the normalizer exclude
collections containing them. -/
def ambiguousTruthiness : PyV → Bool
  | .varr _ => true
  | .vdf _ => true
  | _ => false

/-- A transport-safe encoded value in the sense of §4.6: the output of
some `json.dumps`. -/
def pyIsEncoded : PyV → Bool
  | .vjsonText _ => true
  | _ => false

/-- A submitted batch that resolves in the first wait window and whose
result retrieval succeeds. -/
def goodPair (env : Env) (p : Nat × BElem) : Prop :=
  (∃ v, env.futureOutcome1 p.1 p.2 = .finished v) ∧ env.fetchFails p.1 = false

/-- A submitted batch that is still pending after the first wait window
and again after the retry window: permanently unresolved. -/
def deadPair (env : Env) (p : Nat × BElem) : Prop :=
  (env.futureOutcome1 p.1 p.2).isPending = true ∧ (env.futureOutcome2 p.1 p.2).isPending = true

/-- Number of submissions that time out of the first wait window. -/
def pendCount (env : Env) (pairs : List (Nat × BElem)) : Nat :=
  (pairs.filter fun p => (env.futureOutcome1 p.1 p.2).isPending).length

/-!  Concrete environments and inputs for the closed theorems.  -/

/-- A benign environment: every collaborator succeeds. -/
def envB : Env where
  mkDictionary := fun _ => .ok ⟨3, "local"⟩
  doc2bow := fun _ _ => .ok [(0, 2)]
  calculateNumericAlpha := fun _ _ => 1/10
  calculateNumericBeta := fun _ _ => 1/5
  trainLda := fun _ _ _ _ _ _ _ _ _ _ _ _ => .ok "trained-model"
  estimateBatches := fun _ _ _ _ _ => .ok 2
  calcPerplexityThreshold := fun _ _ d => d
  calcTorchCoherence := fun _ _ _ _ => .ok (3/10)
  calcCoherenceMetrics := fun d real _ _ _ _ _ => .ok ⟨real, d, d, d, d⟩
  calcConvergence := fun _ _ d => d
  calcPerplexityScore := fun _ _ d => d
  extractTopics := fun _ _ => .ok (.ok (.vlist (.cons (.vstr "topic0") .nil)))
  npChoiceIdx := fun _ _ => 3
  futureOutcome1 := fun _ _ => .finished (.vstr "doctopics")
  futureOutcome2 := fun _ _ => .finished (.vstr "doctopics")
  fetchFails := fun _ => false
  showTopic := fun _ => .ok (.vstr "w")
  showTopicsAll := fun _ => .ok (.vlist .nil)
  topTopics := fun _ _ _ => .ok (.vlist .nil)
  randUniform := 1/2
  randInt := 7
  nowStr := "T1"
  nowStr2 := "T2"
  md5 := fun s => "md5#" ++ s
  sha256 := fun s => "sha#" ++ s

/-- Two well-formed documents. -/
def docsB : List PyV :=
  [.vlist (.cons (.vstr "alpha") (.cons (.vstr "beta") .nil)),
   .vlist (.cons (.vstr "gamma") .nil)]

/-- Benign train-phase parameters. -/
def paramsB : Params where
  data_source := "ds"
  n_topics := 5
  alpha_str := .s "symmetric"
  beta_str := .num (1/2)
  zip_path := "zip"
  pylda_path := "pylda"
  pca_path := "pca"
  pca_gpu_path := "pcagpu"
  unified_dictionary := ⟨100, "unified"⟩
  validation_test_data := docsB
  phase := "train"
  random_state := 42
  passes := 2
  iterations := 3
  update_every := 1
  eval_every := 1
  cores := 4
  per_word_topics := false
  ldamodel_parameter := "injected-model"

/-- The same parameters in the validation phase (model injected by the
caller). -/
def paramsV : Params := { paramsB with phase := "validation" }

/-- Benign environment in which every bag-of-words conversion fails. -/
def envC1 : Env := { envB with doc2bow := fun _ _ => .error () }

/-- Benign environment in which the extracted topics are an object no
encoder can serialize. -/
def envC3 : Env := { envB with extractTopics := fun _ _ => .ok (.ok (.vexotic true "WeirdObj")) }

/-- Benign environment in which creating the topic-extraction task
raises. -/
def envC7b : Env := { envB with extractTopics := fun _ _ => .error () }

/-- Benign environment in which the coherence resampling stage always
raises. -/
def envC8 : Env := { envB with calcCoherenceMetrics := fun _ _ _ _ _ _ _ => .error () }

/-- Input containing a falsy non-string non-sequence item (the Python
collection `[["a"], 0]`). -/
def rawC2 : List PyV :=
  [.vlist (.cons (.vstr "a") .nil), .vint 0]

def paramsC2 : Params := { paramsB with validation_test_data := rawC2 }

/-- Input whose second item is a truthy integer (the Python collection
`[["a"], 7]`). -/
def rawC2w : List PyV :=
  [.vlist (.cons (.vstr "a") .nil), .vint 7]

def paramsC2w : Params := { paramsB with validation_test_data := rawC2w }

/-- Environment for the executor counterexample: every batch finishes,
but fetching the first result times out. -/
def envC4x : Env :=
  { envB with
    estimateBatches := fun _ _ _ _ _ => .ok 1
    fetchFails := fun i => i = 0 }

/-- Environment for the executor witness: submissions 0 and 1 finish,
submission 2 stays pending through both wait windows. -/
def envC4w : Env :=
  { envB with
    futureOutcome1 := fun i _ => if i = 2 then .pending else .finished (.vstr "ok")
    futureOutcome2 := fun _ _ => .pending }

/-- The three indexed batches the executor witness submits. -/
def pairsC4w : List (Nat × BElem) :=
  enumIdx 0 [.batchB [[(0, 1)]], .batchB [[(1, 1)]], .batchB [[(2, 1)]]]

/-- Environment whose `doc2bow` answers differently for the phase-local
and the unified dictionary. -/
def envC5 : Env :=
  { envB with
    mkDictionary := fun _ => .ok ⟨2, "local"⟩
    doc2bow := fun d _ => .ok [(0, if d.tag = "local" then 1 else 9)] }

/-- Environment in which the batch-size heuristic always raises. -/
def envC6 : Env := { envB with estimateBatches := fun _ _ _ _ _ => .error () }

/-- The record returned by the benign train-phase run. -/
def recB : List (String × PyV) :=
  match trainModelV2 envB paramsB with
  | .ok (some r) => r
  | _ => []

/-- The record returned by the run whose extracted topics are
unserializable. -/
def recC3 : List (String × PyV) :=
  match trainModelV2 envC3 paramsB with
  | .ok (some r) => r
  | _ => []

/-!  Helper lemmas.  -/

/-- The first serialization tier of lines 480-489 is total, so the
validation payload is always an encoded (`json.dumps`) string. -/
theorem serializeValidationResults_text (phase : String) (results : List PyV) :
    serializeValidationResults phase results =
      .vjsonText (toJDefault (.vlist (.ofList results))) := rfl

/-- The guard of line 516 is never taken: the serialized validation
payload is a nonempty string, so `top_topics` keeps the placeholder. -/
theorem topicWordsStage_placeholder (env : Env) (model : LdaModel) (docs : List PyV)
    (phase : String) (results : List PyV) :
    topicWordsStage env model docs phase (serializeValidationResults phase results) =
      .ok (.vjsonText placeholderJ) := rfl

/-- A successful invocation returns exactly the store-converted record
literal built from some `RecArgs`. -/
theorem trainModelV2_ok_shape {env : Env} {p : Params} {rec : List (String × PyV)}
    (h : trainModelV2 env p = .ok (some rec)) :
    ∃ a, trainCore env p = .ok (some a) ∧ rec = mkDbRecord a := by
  unfold trainModelV2 at h
  cases hc : trainCore env p with
  | error e => rw [hc] at h; simp [Except.map] at h
  | ok o =>
    cases o with
    | none => rw [hc] at h; simp [Except.map] at h
    | some a =>
      rw [hc] at h
      simp [Except.map] at h
      exact ⟨a, rfl, h.symm⟩

/-- Data invariants of every successfully assembled record: the corpus
accumulator is still the line-154 initializer, the negative log
likelihood is still the line-207 default, and the topic-words payload is
still the line-325 placeholder. -/
theorem trainCore_ok_fields {env : Env} {p : Params} {a : RecArgs}
    (h : trainCore env p = .ok (some a)) :
    a.corpusToPickle = "" ∧ a.nll = defaultScore ∧ a.topTopics = .vjsonText placeholderJ := by
  unfold trainCore at h
  simp only [topicWordsStage_placeholder] at h
  iterate 12 (all_goals (try split at h))
  all_goals
    (try (obtain rfl : _ = a := Option.some.inj (Except.ok.inj h); exact ⟨rfl, rfl, rfl⟩))
  all_goals (exact absurd h (by simp))

theorem lookup_corpus (a : RecArgs) :
    List.lookup "corpus" (mkDbRecord a) = some (.vstr a.corpusToPickle) := rfl

theorem lookup_nll (a : RecArgs) :
    List.lookup "nll" (mkDbRecord a) = some (.vfloat a.nll) := rfl

theorem lookup_topTopics (a : RecArgs) :
    List.lookup "top_topics" (mkDbRecord a) = some (safeSerialize a.topTopics) := rfl

theorem lookup_topicsWords (a : RecArgs) :
    List.lookup "topics_words" (mkDbRecord a) = some (safeSerialize a.topicsWords) := rfl

theorem truthyInvalid_not_list {d : PyV} (h : truthyInvalid d = true) : pyIsList d = false := by
  unfold truthyInvalid at h
  simp only [Bool.and_eq_true, Bool.not_eq_true'] at h
  exact h.2

/-- A truthy non-string non-list item makes the coercion step raise the
line-100 `ValueError` carrying the index and the type name. -/
theorem normStep_invalid {d : PyV} (i : Nat) (h : truthyInvalid d = true) :
    normStep i d = .error (.badType i (pyTypeName d)) := by
  have h3 := h
  unfold truthyInvalid at h3
  simp only [Bool.and_eq_true, Bool.not_eq_true'] at h3
  obtain ⟨⟨htr, hns⟩, hnl⟩ := h3
  cases d <;> simp_all [normStep, pyTruthy, pyIsStr, pyIsList]

theorem normStep_valid {d : PyV} (i : Nat) (h : truthyInvalid d = false) :
    ∃ o, normStep i d = .ok o := by
  by_cases htr : pyTruthy d = false
  · refine ⟨none, ?_⟩
    delta normStep
    rw [if_pos htr]
  · have htr2 : pyTruthy d = true := by
      cases hx : pyTruthy d
      · exact absurd hx htr
      · rfl
    unfold truthyInvalid at h
    simp only [htr2, Bool.true_and, Bool.and_eq_false_iff, Bool.not_eq_false'] at h
    cases d <;> simp_all [normStep, pyTruthy, pyIsStr, pyIsList]

theorem normPass1_cons (i : Nat) (d : PyV) (rest : List PyV) :
    normPass1 i (d :: rest) =
      match normStep i d with
      | .error e => (d :: rest, some e)
      | .ok none => (d :: (normPass1 (i + 1) rest).1, (normPass1 (i + 1) rest).2)
      | .ok (some d2) => (d2 :: (normPass1 (i + 1) rest).1, (normPass1 (i + 1) rest).2) := by
  cases hs : normStep i d <;> simp [normPass1, hs]

/-- If the collection contains a truthy non-string non-list item, the
first loop aborts at the first such index with the line-100 error, and
the (partially mutated) surviving list still contains that item. -/
theorem normPass1_invalid : ∀ (raw : List PyV) (i j : Nat) (tn : String),
    firstTruthyInvalidAux i raw = some (j, tn) →
    (normPass1 i raw).2 = some (.badType j tn) ∧
    ∃ d ∈ (normPass1 i raw).1, truthyInvalid d = true := by
  intro raw
  induction raw with
  | nil => intro i j tn h; simp [firstTruthyInvalidAux] at h
  | cons d rest ih =>
    intro i j tn h
    rw [firstTruthyInvalidAux] at h
    by_cases hd : truthyInvalid d = true
    · rw [if_pos hd] at h
      obtain ⟨rfl, rfl⟩ : i = j ∧ pyTypeName d = tn := by simpa using h
      rw [normPass1_cons, normStep_invalid i hd]
      exact ⟨rfl, d, List.mem_cons_self _ _, hd⟩
    · rw [if_neg hd] at h
      obtain ⟨h2, d2, hmem, hinv⟩ := ih (i + 1) j tn h
      obtain ⟨o, ho⟩ := normStep_valid i (by simpa using hd)
      rw [normPass1_cons, ho]
      cases o with
      | none => exact ⟨h2, d2, List.mem_cons_of_mem _ hmem, hinv⟩
      | some d3 => exact ⟨h2, d2, List.mem_cons_of_mem _ hmem, hinv⟩

/-- A surviving non-list entry makes the line 122-133 checks return
`None`. -/
theorem unwrapAndCheck_none {docs : List PyV} {d : PyV} (hmem : d ∈ docs)
    (hnl : pyIsList d = false) : unwrapAndCheck docs = none := by
  have hall : docs.all pyIsList = false := by
    cases hx : docs.all pyIsList
    · rfl
    · rw [List.all_eq_true] at hx
      exact absurd (hx d hmem) (by simp [hnl])
  match docs, hmem with
  | [d0], hm =>
    obtain rfl : d = d0 := by simpa using hm
    cases d <;> simp_all [unwrapAndCheck, pyIsList]
  | d0 :: d1 :: tl, hm =>
    simp_all [unwrapAndCheck]

theorem normalizePasses_invalid {raw : List PyV} {j : Nat} {tn : String}
    (h : firstTruthyInvalid raw = some (j, tn)) :
    normalizePasses raw = ((normPass1 0 raw).1, some (.badType j tn)) ∧
    ∃ d ∈ (normPass1 0 raw).1, truthyInvalid d = true := by
  obtain ⟨h2, hd⟩ := normPass1_invalid raw 0 j tn h
  constructor
  · unfold normalizePasses
    have hp : normPass1 0 raw = ((normPass1 0 raw).1, some (.badType j tn)) := by
      rw [← h2]
    rw [hp]
  · exact hd

theorem fallbackCoherenceValues_len : fallbackCoherenceValues.length = 10 := rfl

/-- Numpy's seeded choice selects an element of the candidate list. -/
theorem npChoice_mem (env : Env) (seed : Nat) (l : List ℚ) (h : l ≠ []) :
    npChoice env seed l ∈ l := by
  unfold npChoice
  have hl : 0 < l.length := List.length_pos.mpr h
  have hlt : env.npChoiceIdx seed l.length % l.length < l.length := Nat.mod_lt _ hl
  rw [List.getD_eq_getElem l 0 hlt]
  exact List.getElem_mem hlt

/-- Chunks of positive size concatenate back to the original list. -/
theorem chunkFuel_join {α : Type} (bs : Nat) (hbs : 1 ≤ bs) :
    ∀ (fuel : Nat) (l : List α), l.length ≤ fuel → (chunkFuel bs fuel l).flatten = l := by
  intro fuel
  induction fuel with
  | zero =>
    intro l h
    have : l = [] := List.length_eq_zero.mp (Nat.le_zero.mp h)
    simp [this, chunkFuel]
  | succ n ih =>
    intro l h
    match l with
    | [] => simp [chunkFuel]
    | x :: xs =>
      simp only [chunkFuel, List.flatten_cons]
      rw [ih (List.drop bs (x :: xs)) ?hlen]
      · exact List.take_append_drop bs (x :: xs)
      · rw [List.length_drop]
        have hl : (x :: xs).length ≤ n + 1 := h
        omega

theorem chunkFuel_mem_length {α : Type} (bs : Nat) :
    ∀ (fuel : Nat) (l : List α), ∀ c ∈ chunkFuel bs fuel l, c.length ≤ bs := by
  intro fuel
  induction fuel with
  | zero => intro l c h; simp [chunkFuel] at h
  | succ n ih =>
    intro l c h
    match l with
    | [] => simp [chunkFuel] at h
    | x :: xs =>
      simp only [chunkFuel] at h
      rcases List.mem_cons.mp h with rfl | h2
      · simp [List.length_take_le]
      · exact ih _ _ h2

/-- The done/not-done partition of a wait window covers all
submissions. -/
theorem execPartition_length (env : Env) : ∀ pairs : List (Nat × BElem),
    (pairs.filterMap fun p => match env.futureOutcome1 p.1 p.2 with
      | .pending => none
      | o => some (p.1, o)).length
      + (pairs.filter fun p => (env.futureOutcome1 p.1 p.2).isPending).length
      = pairs.length := by
  intro pairs
  induction pairs with
  | nil => rfl
  | cons p rest ih =>
    cases ho : env.futureOutcome1 p.1 p.2 with
    | pending =>
      simp only [List.filterMap_cons, List.filter_cons, ho]
      rw [if_pos (show FutOutcome.pending.isPending = true from rfl)]
      simp only [List.length_cons]
      omega
    | finished v =>
      simp only [List.filterMap_cons, List.filter_cons, ho]
      rw [if_neg (show ¬ ((FutOutcome.finished v).isPending = true) from Bool.false_ne_true)]
      simp only [List.length_cons]
      omega
    | errored =>
      simp only [List.filterMap_cons, List.filter_cons, ho]
      rw [if_neg (show ¬ (FutOutcome.errored.isPending = true) from Bool.false_ne_true)]
      simp only [List.length_cons]
      omega

/-- The atomic fetch comprehension succeeds, one value per future, when
every future finished and every retrieval succeeds. -/
theorem processFetch_ok (env : Env) : ∀ l : List (Nat × FutOutcome),
    (∀ q ∈ l, (∃ v, q.2 = .finished v) ∧ env.fetchFails q.1 = false) →
    ∃ vs, processFetch env l = some vs ∧ vs.length = l.length := by
  intro l
  induction l with
  | nil => intro _; exact ⟨[], rfl, rfl⟩
  | cons q rest ih =>
    intro h
    obtain ⟨⟨v, hv⟩, hf⟩ := h q (List.mem_cons_self _ _)
    obtain ⟨vs, hp, hl⟩ := ih fun r hr => h r (List.mem_cons_of_mem _ hr)
    obtain ⟨i, o⟩ := q
    simp only at hv hf
    subst hv
    refine ⟨v :: vs, ?_, by simp [hl]⟩
    simp [processFetch, hf, hp]

theorem countUnresolved_map (l : List (Nat × FutOutcome)) :
    countUnresolved (l.map fun q => LogE.unresolvedAfterRetry q.1) = l.length := by
  unfold countUnresolved
  rw [List.filter_map]
  have h : ((fun e => match e with
      | LogE.unresolvedAfterRetry _ => true
      | _ => false) ∘ fun q : Nat × FutOutcome => LogE.unresolvedAfterRetry q.1) =
      fun _ => true := by
    funext q; rfl
  rw [h, List.filter_true, List.length_map]

theorem countUnresolved_append (l1 l2 : List LogE) :
    countUnresolved (l1 ++ l2) = countUnresolved l1 + countUnresolved l2 := by
  unfold countUnresolved
  rw [List.filter_append, List.length_append]

theorem countUnresolved_retrying (n : Nat) (l : List LogE) :
    countUnresolved (LogE.retrying n :: l) = countUnresolved l := rfl

theorem countUnresolved_summary (n : Nat) :
    countUnresolved [LogE.unresolvedSummary n] = 0 := rfl

/-!  Claim theorems.  -/

/-- C1: in the claimed scenario — phase `validation`, caller-injected
model, every bag-of-words conversion failing — the function does not
return a MetadataRecord at all: it raises `AttributeError` at line 714,
because for non-train phases `ldamodel_bytes` is raw `pickle` bytes and
has no `compute` attribute.  Moreover, the validation-results payload
computed on the way is `json.dumps([])` (an empty corpus produces no
batches and no exception), not the structured error sentinel the claim
expects. -/
theorem c1_validation_all_conversions_fail_raises :
    trainModelV2 envC1 paramsV = .error "AttributeError: bytes object has no attribute compute" ∧
    (bowStage envC1 ⟨3, "local"⟩ docsB).corpus = [] ∧
    (bowStage envC1 ⟨3, "local"⟩ docsB).nFailed = 2 ∧
    serializeValidationResults "validation" (batchStage envC1 "ds" []).results =
      .vjsonText (.jlist []) :=
  ⟨rfl, rfl, rfl, rfl⟩

/-- C2 (amended): for every raw collection free of items whose bare
truthiness test itself raises in Python (no `ndarray`/`DataFrame`
items) and containing a truthy item that is neither a string nor a
sequence, normalization raises a StructuralError (`ValueError`,
line 100) identifying the first such index and its type; the error is
caught and logged at the normalization boundary (line 112) and the
whole call returns `None` — no MetadataRecord. -/
theorem c2_invalid_item_aborts_without_record (env : Env) (p : Params) (raw : List PyV)
    (j : Nat) (tn : String)
    (_h0 : raw.all (fun d => !ambiguousTruthiness d) = true)
    (h1 : p.validation_test_data = raw)
    (h2 : firstTruthyInvalid raw = some (j, tn)) :
    (normalizePasses raw).2 = some (.badType j tn) ∧ trainModelV2 env p = .ok none := by
  obtain ⟨hn, d, hmem, hinv⟩ := normalizePasses_invalid h2
  refine ⟨by rw [hn], ?_⟩
  have hcore : trainCore env p = .ok none := by
    unfold trainCore
    rw [h1, hn]
    have hne : ((normPass1 0 raw).1.isEmpty) = false := by
      cases hx : (normPass1 0 raw).1
      · rw [hx] at hmem; simp at hmem
      · simp [List.isEmpty]
    simp only [hne]
    rw [unwrapAndCheck_none hmem (truthyInvalid_not_list hinv)]
    rfl
  unfold trainModelV2
  rw [hcore]
  rfl

/-- C2 witness: the Python collection `[["a"], 7]` (no
ambiguous-truthiness items, a truthy integer at index 1). -/
theorem c2_invalid_item_witness :
    rawC2w.all (fun d => !ambiguousTruthiness d) = true ∧
    firstTruthyInvalid rawC2w = some (1, "int") ∧
    (normalizePasses rawC2w).2 = some (.badType 1 "int") ∧
    trainModelV2 envB paramsC2w = .ok none := by
  refine ⟨by decide, by decide, ?_, ?_⟩
  · exact (c2_invalid_item_aborts_without_record envB paramsC2w rawC2w 1 "int"
      (by decide) rfl rfl).1
  · exact (c2_invalid_item_aborts_without_record envB paramsC2w rawC2w 1 "int"
      (by decide) rfl rfl).2

/-- C2 counterexample: the Python collection `[["a"], 0]` contains an
item that is neither a string nor a sequence, yet the raised
StructuralError is the line-106 structural one, which identifies only
the index — not the type, as the claim requires (the falsy `0` is
skipped by the coercion loop).  The call still returns no record. -/
theorem c2_falsy_invalid_counterexample :
    (normalizePasses rawC2).2 = some (.badStructure 1) ∧
    trainModelV2 envB paramsC2 = .ok none :=
  ⟨rfl, rfl⟩

/-- C3 (amended): the cascade applied to the validation results always
terminates in an encoded value (its first tier is total); every record
that is returned carries the untouched line-325 placeholder as its
topic-words payload, because the line-516 guard of the topic-words
serialization site is never taken; and the extracted-topics fallback
cascade, when entered, terminates with the raw replacement structure
(line 360 assigns `convert_float32_to_float(...)` without encoding
it). -/
theorem c3_serialization_cascade_amended :
    (∀ (phase : String) (results : List PyV),
      ∃ j, serializeValidationResults phase results = .vjsonText j) ∧
    (∀ (env : Env) (p : Params) (rec : List (String × PyV)),
      trainModelV2 env p = .ok (some rec) →
      List.lookup "top_topics" rec = some (.vjsonText placeholderJ)) ∧
    (∀ phase, topicsFallbackCascade phase = failedTopicsVal) := by
  refine ⟨fun phase results => ⟨_, rfl⟩, ?_, fun phase => rfl⟩
  intro env p rec h
  obtain ⟨a, ha, rfl⟩ := trainModelV2_ok_shape h
  rw [lookup_topTopics, (trainCore_ok_fields ha).2.2]
  rfl

/-- C3 witness: a concrete benign train run returns a record whose
`top_topics` is the placeholder, and concrete instances of the other
two conjuncts. -/
theorem c3_serialization_witness :
    (∃ j, serializeValidationResults "validation" [] = PyV.vjsonText j) ∧
    List.lookup "top_topics" recB = some (.vjsonText placeholderJ) ∧
    topicsFallbackCascade "validation" = failedTopicsVal :=
  ⟨c3_serialization_cascade_amended.1 "validation" [],
   c3_serialization_cascade_amended.2.1 envB paramsB recB rfl,
   c3_serialization_cascade_amended.2.2 "validation"⟩

/-- C3 counterexample: when the extracted topics are unserializable,
the returned record's `topics_words` payload is the raw replacement
list — not an encoded value, contradicting the claim that every call
site of the cascade terminates in a valid encoded value. -/
theorem c3_raw_topics_counterexample :
    trainModelV2 envC3 paramsB = .ok (some recC3) ∧
    List.lookup "topics_words" recC3 = some failedTopicsVal ∧
    pyIsEncoded failedTopicsVal = false :=
  ⟨rfl, rfl, rfl⟩

/-- C4 (amended): if every submitted batch either finishes in the first
wait window with a successful fetch or stays pending through both
windows, the result count equals N − K (K the number of first-window
timeouts) and exactly K per-future unresolved-after-retry log entries
are emitted.  (A fetch failure, by contrast, drops the whole
aggregated list — see the counterexample.) -/
theorem c4_executor_counts_amended (env : Env) (pairs : List (Nat × BElem))
    (H : ∀ p ∈ pairs, goodPair env p ∨ deadPair env p) :
    (execFutures env pairs).1.length = pairs.length - pendCount env pairs ∧
    countUnresolved (execFutures env pairs).2 = pendCount env pairs := by
  unfold execFutures
  simp only []
  have hdone1 : ∀ q ∈ (pairs.filterMap fun p => match env.futureOutcome1 p.1 p.2 with
      | .pending => none
      | o => some (p.1, o)), (∃ v, q.2 = .finished v) ∧ env.fetchFails q.1 = false := by
    intro q hq
    obtain ⟨p, hp, hg⟩ := List.mem_filterMap.mp hq
    rcases H p hp with ⟨⟨v, hv⟩, hf⟩ | ⟨hp1, _⟩
    · rw [hv] at hg
      simp only [Option.some.injEq] at hg
      subst hg
      exact ⟨⟨v, rfl⟩, hf⟩
    · cases ho : env.futureOutcome1 p.1 p.2 <;>
        rw [ho] at hg hp1 <;> simp_all [FutOutcome.isPending]
  have hnd : ∀ p ∈ (pairs.filter fun p => (env.futureOutcome1 p.1 p.2).isPending),
      (env.futureOutcome2 p.1 p.2).isPending = true := by
    intro p hp
    obtain ⟨hmem, hpend⟩ := List.mem_filter.mp hp
    rcases H p hmem with ⟨⟨v, hv⟩, _⟩ | ⟨_, h2⟩
    · rw [hv] at hpend; simp [FutOutcome.isPending] at hpend
    · exact h2
  have hdone2 : ((pairs.filter fun p => (env.futureOutcome1 p.1 p.2).isPending).map
      fun p => (p.1, env.futureOutcome2 p.1 p.2)).filter (fun q => !q.2.isPending) = [] := by
    rw [List.filter_eq_nil_iff]
    intro q hq
    obtain ⟨p, hp, hg⟩ := List.mem_map.mp hq
    subst hg
    simp [hnd p hp]
  have hnd2 : ((pairs.filter fun p => (env.futureOutcome1 p.1 p.2).isPending).map
      fun p => (p.1, env.futureOutcome2 p.1 p.2)).filter (fun q => q.2.isPending) =
      (pairs.filter fun p => (env.futureOutcome1 p.1 p.2).isPending).map
      fun p => (p.1, env.futureOutcome2 p.1 p.2) := by
    rw [List.filter_eq_self]
    intro q hq
    obtain ⟨p, hp, hg⟩ := List.mem_map.mp hq
    subst hg
    exact hnd p hp
  have hlogs1 : ((pairs.filterMap fun p => match env.futureOutcome1 p.1 p.2 with
      | .pending => none
      | o => some (p.1, o)).filterMap fun q =>
        if q.2.isErrored then some (LogE.futureFailed q.1) else none) = [] := by
    rw [List.filterMap_eq_nil_iff]
    intro q hq
    obtain ⟨⟨v, hv⟩, _⟩ := hdone1 q hq
    rw [hv]
    rfl
  rw [hdone2, hnd2, hlogs1]
  obtain ⟨vs, hpf, hlen⟩ := processFetch_ok env
    ((pairs.filterMap fun p => match env.futureOutcome1 p.1 p.2 with
      | .pending => none
      | o => some (p.1, o)) ++ []) (by rw [List.append_nil]; exact hdone1)
  rw [hpf]
  have hpart := execPartition_length env pairs
  constructor
  · rw [hlen, List.length_append, List.length_nil]
    unfold pendCount
    omega
  · rw [List.nil_append]
    by_cases hne : (pairs.filter fun p => (env.futureOutcome1 p.1 p.2).isPending) = []
    · rw [if_pos (by rw [hne]; rfl)]
      unfold pendCount
      rw [hne]
      rfl
    · rw [if_neg (by
        intro hx
        exact hne (List.isEmpty_iff.mp hx))]
      rw [if_neg (by
        intro hx
        exact hne (List.map_eq_nil_iff.mp (List.isEmpty_iff.mp hx)))]
      rw [countUnresolved_retrying, countUnresolved_append, countUnresolved_summary,
        countUnresolved_map, List.length_map]
      unfold pendCount
      omega

/-- C4 witness: three batches, of which one never resolves: two
results, one unresolved-after-retry log entry. -/
theorem c4_executor_witness :
    (execFutures envC4w pairsC4w).1.length = 2 ∧
    countUnresolved (execFutures envC4w pairsC4w).2 = 1 := by
  have h := c4_executor_counts_amended envC4w pairsC4w (by
    intro p hp
    simp only [pairsC4w, enumIdx, List.mem_cons, List.not_mem_nil, or_false] at hp
    rcases hp with rfl | rfl | rfl
    · exact Or.inl ⟨⟨.vstr "ok", rfl⟩, rfl⟩
    · exact Or.inl ⟨⟨.vstr "ok", rfl⟩, rfl⟩
    · exact Or.inr ⟨rfl, rfl⟩)
  refine ⟨?_, ?_⟩
  · rw [h.1]; rfl
  · rw [h.2]; rfl

/-- C4 counterexample: two batches both finish, only the first fetch
fails, and the claim predicts one surviving result — but the atomic
comprehension of line 465 drops everything, leaving zero results (no
unresolved-task entries were logged). -/
theorem c4_fetch_failure_counterexample :
    (batchStage envC4x "ds" [[(0, 1)], [(1, 1)]]).nBatches = 2 ∧
    countUnresolved (batchStage envC4x "ds" [[(0, 1)], [(1, 1)]]).logs = 0 ∧
    (batchStage envC4x "ds" [[(0, 1)], [(1, 1)]]).results = [] ∧
    (batchStage envC4x "ds" [[(0, 1)], [(1, 1)]]).results.length ≠ 2 - 1 :=
  ⟨rfl, rfl, rfl, by decide⟩

/-- C5 (amended): the bag-of-words loop converts every normalized
document with `doc2bow` of the dictionary it is given — at its only
call site in `trainCore` the phase-local `train_val_test_dictionary`,
not the unified one — keeping successes in document order and counting
each remaining document as failed, without ever aborting. -/
theorem c5_bow_conversion_amended (env : Env) (dict : DictObj) (docs : List PyV) :
    (bowStage env dict docs).corpus = docs.filterMap (convertDoc env dict) ∧
    (bowStage env dict docs).nDocs = (docs.filterMap (convertDoc env dict)).length ∧
    (bowStage env dict docs).nFailed =
      docs.length - (docs.filterMap (convertDoc env dict)).length := by
  induction docs with
  | nil => exact ⟨rfl, rfl, rfl⟩
  | cons d rest ih =>
    obtain ⟨ih1, ih2, ih3⟩ := ih
    have hle : (rest.filterMap (convertDoc env dict)).length ≤ rest.length :=
      List.length_filterMap_le _ _
    cases hc : convertDoc env dict d with
    | some bow =>
      refine ⟨?_, ?_, ?_⟩ <;>
        simp [bowStage, hc, List.filterMap_cons, ih1, ih2, ih3, Nat.succ_sub hle]
    | none =>
      refine ⟨?_, ?_, ?_⟩ <;>
        simp [bowStage, hc, List.filterMap_cons, ih1, ih2, ih3]
      omega

/-- C5 counterexample: an environment whose `doc2bow` answers
differently for the phase-local and the unified dictionary shows the
built corpus is the phase-local conversion, not the conversion against
the externally supplied unified vocabulary the claim states. -/
theorem c5_unified_dictionary_counterexample :
    (bowStage envC5 ⟨2, "local"⟩ docsB).corpus = [[(0, 1)], [(0, 1)]] ∧
    docsB.filterMap (convertDoc envC5 ⟨100, "unified"⟩) = [[(0, 9)], [(0, 9)]] ∧
    (bowStage envC5 ⟨2, "local"⟩ docsB).corpus ≠
      docsB.filterMap (convertDoc envC5 ⟨100, "unified"⟩) :=
  ⟨rfl, rfl, by decide⟩

/-- C6 (amended): with the heuristic succeeding (called with bounds
`[1, 15]`, memory ratio `0.4`, CPU factor `3`), the batch size is the
estimate clamped to the corpus length, at least 1 and at most the
corpus length, and the batches partition the corpus in order; when the
clamped value is zero, `5` is substituted for it; when the heuristic
raises, the fallback submits one bare document per batch
(`corpus_batches = corpus_data[phase]`), not the entire corpus as a
single batch, and `batch_size` keeps its `-1` initializer. -/
theorem c6_batch_size_amended :
    (∀ (env : Env) (ds : String) (corpus : List Bow) (est : Nat),
      env.estimateBatches ds 1 15 (2/5) 3 = .ok est → 1 ≤ est → corpus ≠ [] →
      computeBatches env ds corpus =
        ((chunkList corpus (min corpus.length est)).map .batchB,
          (min corpus.length est : Int)) ∧
      1 ≤ min corpus.length est ∧ min corpus.length est ≤ corpus.length ∧
      (chunkList corpus (min corpus.length est)).flatten = corpus ∧
      ∀ c ∈ chunkList corpus (min corpus.length est), c.length ≤ min corpus.length est) ∧
    (∀ (env : Env) (ds : String) (corpus : List Bow) (est : Nat),
      env.estimateBatches ds 1 15 (2/5) 3 = .ok est → min corpus.length est = 0 →
      computeBatches env ds corpus = ((chunkList corpus 5).map .batchB, 5)) ∧
    (∀ (env : Env) (ds : String) (corpus : List Bow),
      env.estimateBatches ds 1 15 (2/5) 3 = .error () →
      computeBatches env ds corpus = (corpus.map .singleB, -1)) := by
  refine ⟨?_, ?_, ?_⟩
  · intro env ds corpus est hok hest hne
    have hlen : 1 ≤ corpus.length := by
      cases corpus with
      | nil => exact absurd rfl hne
      | cons a b => simp
    have hmin : 1 ≤ min corpus.length est := le_min hlen hest
    have hmin0 : ¬ (min corpus.length est = 0) := by omega
    refine ⟨?_, hmin, min_le_left _ _, ?_, ?_⟩
    · unfold computeBatches
      rw [hok]
      simp [hmin0]
    · exact chunkFuel_join _ hmin _ _ le_rfl
    · exact chunkFuel_mem_length _ _ _
  · intro env ds corpus est hok hzero
    unfold computeBatches
    rw [hok]
    simp [hzero]
  · intro env ds corpus herr
    unfold computeBatches
    rw [herr]

/-- C6 witness: a corpus of three documents with estimate 2 partitions
into a pair and a singleton; an empty corpus clamps the estimate to
zero and `5` is substituted; a failing heuristic yields the
one-document-per-batch fallback. -/
theorem c6_batch_size_witness :
    computeBatches envB "ds" [[(0, 1)], [(1, 1)], [(2, 1)]] =
      ([.batchB [[(0, 1)], [(1, 1)]], .batchB [[(2, 1)]]], 2) ∧
    computeBatches envB "ds" [] = ([], 5) ∧
    computeBatches envC6 "ds" [[(0, 1)]] = ([.singleB [(0, 1)]], -1) := by
  have h1 := (c6_batch_size_amended.1 envB "ds" [[(0, 1)], [(1, 1)], [(2, 1)]] 2
    rfl (by decide) (by decide)).1
  have h2 := c6_batch_size_amended.2.1 envB "ds" [] 2 rfl (by decide)
  have h3 := c6_batch_size_amended.2.2 envC6 "ds" [[(0, 1)]] rfl
  refine ⟨?_, ?_, ?_⟩
  · rw [h1]; rfl
  · rw [h2]; rfl
  · rw [h3]; rfl

/-- C6 counterexample: on heuristic failure a two-document corpus
becomes two bare-document submissions, not one batch holding the whole
corpus. -/
theorem c6_fallback_counterexample :
    (computeBatches envC6 "ds" [[(0, 1)], [(1, 1)]]).1 =
      [.singleB [(0, 1)], .singleB [(1, 1)]] ∧
    (computeBatches envC6 "ds" [[(0, 1)], [(1, 1)]]).1.length = 2 ∧
    (computeBatches envC6 "ds" [[(0, 1)], [(1, 1)]]).1 ≠ [.batchB [[(0, 1)], [(1, 1)]]] :=
  ⟨rfl, rfl, by decide⟩

/-- C7: two invocations that none of the three fatal error classes
halts, yet the caller observes an unhandled exception instead of a
complete MetadataRecord: every benign validation-phase run raises
`AttributeError` at line 714, and a benign train-phase run whose
topic-extraction task creation raised hits an unbound
`topics_to_store_task` (`NameError`) at the line-639 join. -/
theorem c7_nonfatal_exception_escapes :
    trainModelV2 envB paramsV = .error "AttributeError: bytes object has no attribute compute" ∧
    trainModelV2 envC7b paramsB = .error "NameError: topics_to_store_task is not defined" :=
  ⟨rfl, rfl⟩

/-- C8: whenever the coherence resampling stage fails, all five
coherence statistics collapse to one identical value; that value is the
seeded numpy draw from the fixed 10-element candidate range, so it is
an element of the range and identical across any two failing runs
against the same external world. -/
theorem c8_coherence_fallback_deterministic (env : Env)
    (ds1 ds2 : String) (m1 m2 : LdaModel) (docs1 docs2 : List PyV) (dict1 dict2 : DictObj)
    (c1 c2 ma1 ma2 : Nat)
    (h1 : env.calcCoherenceMetrics defaultScore (cohPrimary env ds1 m1 docs1 dict1)
      m1 dict1 docs1 c1 ma1 = .error ())
    (h2 : env.calcCoherenceMetrics defaultScore (cohPrimary env ds2 m2 docs2 dict2)
      m2 dict2 docs2 c2 ma2 = .error ()) :
    (coherenceStage env ds1 m1 docs1 dict1 c1 ma1).score =
        (coherenceStage env ds1 m1 docs1 dict1 c1 ma1).mean ∧
    (coherenceStage env ds1 m1 docs1 dict1 c1 ma1).mean =
        (coherenceStage env ds1 m1 docs1 dict1 c1 ma1).median ∧
    (coherenceStage env ds1 m1 docs1 dict1 c1 ma1).median =
        (coherenceStage env ds1 m1 docs1 dict1 c1 ma1).std ∧
    (coherenceStage env ds1 m1 docs1 dict1 c1 ma1).std =
        (coherenceStage env ds1 m1 docs1 dict1 c1 ma1).mode ∧
    (coherenceStage env ds1 m1 docs1 dict1 c1 ma1).score =
        (coherenceStage env ds2 m2 docs2 dict2 c2 ma2).score ∧
    (coherenceStage env ds1 m1 docs1 dict1 c1 ma1).score ∈ fallbackCoherenceValues := by
  unfold coherenceStage
  rw [h1, h2]
  refine ⟨rfl, rfl, rfl, rfl, rfl, ?_⟩
  exact npChoice_mem env 8241984 fallbackCoherenceValues (by decide)

/-- C8 witness: two different failing runs in the same environment
agree on the single collapsed value, which lies in the candidate
range. -/
theorem c8_coherence_fallback_witness :
    (coherenceStage envC8 "ds" "m1" docsB ⟨100, "unified"⟩ 4 7).score =
      (coherenceStage envC8 "other" "m2" [] ⟨1, "u"⟩ 1 2).score ∧
    (coherenceStage envC8 "ds" "m1" docsB ⟨100, "unified"⟩ 4 7).score =
      (coherenceStage envC8 "ds" "m1" docsB ⟨100, "unified"⟩ 4 7).mean ∧
    (coherenceStage envC8 "ds" "m1" docsB ⟨100, "unified"⟩ 4 7).score ∈
      fallbackCoherenceValues := by
  have h := c8_coherence_fallback_deterministic envC8 "ds" "other" "m1" "m2" docsB []
    ⟨100, "unified"⟩ ⟨1, "u"⟩ 4 1 7 2 rfl rfl
  exact ⟨h.2.2.2.2.1, h.1, h.2.2.2.2.2⟩

/-- C9: every returned record's `corpus` field is the empty string —
the `corpus_to_pickle` accumulator of line 154 is never reassigned. -/
theorem c9_corpus_field_always_empty (env : Env) (p : Params) (rec : List (String × PyV))
    (h : trainModelV2 env p = .ok (some rec)) :
    List.lookup "corpus" rec = some (.vstr "") := by
  obtain ⟨a, ha, rfl⟩ := trainModelV2_ok_shape h
  rw [lookup_corpus, (trainCore_ok_fields ha).1]

/-- C9 witness: the benign train run returns a record, and its `corpus`
field is empty. -/
theorem c9_corpus_field_witness :
    ∃ rec, trainModelV2 envB paramsB = .ok (some rec) ∧
      List.lookup "corpus" rec = some (.vstr "") :=
  ⟨recB, rfl, c9_corpus_field_always_empty envB paramsB recB rfl⟩

/-- C10: every returned record's `nll` field is the shared default
score 0.25 — `negative_log_likelihood` is set at line 207 and never
recomputed. -/
theorem c10_nll_always_default (env : Env) (p : Params) (rec : List (String × PyV))
    (h : trainModelV2 env p = .ok (some rec)) :
    List.lookup "nll" rec = some (.vfloat (1/4)) := by
  obtain ⟨a, ha, rfl⟩ := trainModelV2_ok_shape h
  rw [lookup_nll, (trainCore_ok_fields ha).2.1]
  rfl

/-- C10 witness: the benign train run returns a record, and its `nll`
field is 0.25. -/
theorem c10_nll_witness :
    ∃ rec, trainModelV2 envB paramsB = .ok (some rec) ∧
      List.lookup "nll" rec = some (.vfloat (1/4)) :=
  ⟨recB, rfl, c10_nll_always_default envB paramsB recB rfl⟩

end DataPulse
